import Mathlib

/-!
Shallow embedding of `src/jss/connectors.py` (python-jss).

Modelling conventions:

* Python 2 byte strings that make up request URLs (the stored base URL,
  resource paths, and the output of `urllib.quote`) are modelled as
  `List Nat`, one entry per byte.  A resource path handed to a verb is
  its UTF-8 byte sequence (Python 2 `str`).
* Response bodies and XML payloads are modelled as Lean `String`s; the
  id-extraction regex of `post` only matches ASCII characters, on which
  the byte level and the character level agree.
* External collaborators (the `requests` session, `ElementTree`,
  `JSSObjectFactory`) are passed in as function arguments: an HTTP verb
  of the session maps the request URL (and optional body) to the
  `Response` the server produced, `ElementTree.fromstring` is a function
  `String → Option α` (`none` models `ParseError`), and
  `factory.get_object` is a function of the object class and the id.
* A raised Python exception is `Except.error` of a `PyExn`.
* Each verb returns the list of lines printed by its verbose trace
  alongside its result; `post` additionally returns the list of
  `factory.get_object` invocations it performed.
-/

namespace Jss

/-- ASCII bytes of a Lean string literal (used for ASCII literals only). -/
def strBytes (s : String) : List Nat :=
  s.data.map Char.toNat

/-- The safe set of Python 2 `urllib.quote` with the default `safe="/"`:
ASCII letters, digits, and the characters `_`, `.`, `-`, `/`. -/
def always_safe_byte (b : Nat) : Bool :=
  (65 ≤ b && b ≤ 90) || (97 ≤ b && b ≤ 122) || (48 ≤ b && b ≤ 57) ||
    b == 95 || b == 46 || b == 45 || b == 47

/-- Upper-case hexadecimal digit as an ASCII byte. -/
def hexDigit (n : Nat) : Nat :=
  if n < 10 then 48 + n else 55 + n

/-- `urllib.quote` on a single byte: a safe byte passes through, every
other byte becomes `%XX`. -/
def quoteByte (b : Nat) : List Nat :=
  if always_safe_byte b then [b] else [37, hexDigit (b / 16), hexDigit (b % 16)]

/-- Python 2 `urllib.quote` with the default `safe="/"`. -/
def quote (bs : List Nat) : List Nat :=
  bs.flatMap quoteByte

/-- Diagnostic payload of a raised JSS error: either the HTTP status and
response body attached by `error_handler`, or the message of an error
raised directly with a string (the malformed-XML case in `get`). -/
inductive ErrDiag where
  | http (status : Nat) (body : String)
  | message (msg : String)
deriving DecidableEq

/-- The Python exceptions that the connector code can raise. -/
inductive PyExn where
  | jssGetError (d : ErrDiag)
  | jssPostError (d : ErrDiag)
  | jssPutError (d : ErrDiag)
  | jssDeleteError (d : ErrDiag)
  | attributeError (msg : String)
deriving DecidableEq

/-- A `requests` HTTP response, reduced to the two fields the connector
reads: `status_code` and the decoded body `text`. -/
structure Response where
  status_code : Nat
  text : String
deriving DecidableEq

/-- Modelled from the spec: `error_handler` lives in `jss.tools`, which is
not under `src/`.  Per the spec it is "an error formatter that turns a
failed HTTP response into a diagnostic message", and "every failure is
raised immediately to the caller with the original HTTP status and
response body attached". -/
def error_handler (kind : ErrDiag → PyExn) (response : Response) : PyExn :=
  kind (ErrDiag.http response.status_code response.text)

/-- `JSSAPIConnector._url` (line 141): `"%s/%s" % (self.base_url, "JSSResource")`. -/
def api_url (base_url : List Nat) : List Nat :=
  base_url ++ strBytes "/JSSResource"

/-- Request URL built by `get` (line 178): the path is percent-encoded
with `urllib.quote` after UTF-8 encoding. -/
def get_request_url (base_url url_path : List Nat) : List Nat :=
  api_url base_url ++ quote url_path

/-- Request URL built by `post` (line 231): raw concatenation. -/
def post_request_url (base_url url_path : List Nat) : List Nat :=
  api_url base_url ++ url_path

/-- Request URL built by `put` (line 263): raw concatenation. -/
def put_request_url (base_url url_path : List Nat) : List Nat :=
  api_url base_url ++ url_path

/-- Request URL built by `delete` (line 285): raw concatenation. -/
def delete_request_url (base_url url_path : List Nat) : List Nat :=
  api_url base_url ++ url_path

/-- The XML-parsing tail of `get` (lines 188-194): on a `ParseError`
(`fromstring _ = none`) raise `JSSGetError("Error Parsing XML:\n" + body)`,
otherwise return the parsed document root. -/
def get_parse {α : Type} (jss_results : String) (fromstring : String → Option α) :
    Except PyExn α :=
  match fromstring jss_results with
  | some xmldata => Except.ok xmldata
  | none =>
    Except.error (PyExn.jssGetError (ErrDiag.message ("Error Parsing XML:\n" ++ jss_results)))

/-- `JSSAPIConnector.get` (lines 157-194): build the request URL with the
quoted path, print a trace on status 200 when verbose, raise
`JSSGetError` via `error_handler` on status ≥ 400, then parse the body
as XML. -/
def get {α : Type} (base_url url_path : List Nat) (verbose : Bool)
    (session_get : List Nat → Response) (fromstring : String → Option α) :
    List (List Nat) × Except PyExn α :=
  let request_url := get_request_url base_url url_path
  let response := session_get request_url
  if response.status_code = 200 ∧ verbose = true then
    ([strBytes "GET " ++ request_url ++ strBytes ": Success."],
      get_parse response.text fromstring)
  else if 400 ≤ response.status_code then
    ([], Except.error (error_handler PyExn.jssGetError response))
  else
    ([], get_parse response.text fromstring)

/-- Numeric value of a list of ASCII digits (the regex capture group). -/
def digitsToNat (ds : List Char) : Nat :=
  ds.foldl (fun a c => a * 10 + (c.toNat - 48)) 0

/-- Match the regex `<id>([0-9]+)</id>` anchored at the head of `l`,
returning the captured number.  The digit run is taken maximal; since a
digit cannot begin `</id>`, this agrees with the backtracking semantics
of the regex engine at this position. -/
def matchIdAt (l : List Char) : Option Nat :=
  if "<id>".data.isPrefixOf l then
    let rest := l.drop 4
    let ds := rest.takeWhile Char.isDigit
    if ds ≠ [] ∧ "</id>".data.isPrefixOf (rest.drop ds.length) then
      some (digitsToNat ds)
    else none
  else none

/-- `re.search(r"<id>([0-9]+)</id>", s)` (line 244): leftmost match wins. -/
def searchId : List Char → Option Nat
  | [] => none
  | c :: cs =>
    match matchIdAt (c :: cs) with
    | some n => some n
    | none => searchId cs

/-- The id-extraction tail of `post` (lines 243-246).  When the regex does
not match, `re.search` returns `None` and the attribute access
`.group(1)` raises `AttributeError`; otherwise the factory is invoked
with the extracted id.  The first component records the
`factory.get_object` invocations performed. -/
def post_finish {γ β : Type} (factory_get_object : γ → Nat → β) (obj_class : γ)
    (response : Response) : List (γ × Nat) × Except PyExn β :=
  match searchId response.text.data with
  | none => ([], Except.error (PyExn.attributeError "NoneType object has no attribute group"))
  | some id_ => ([(obj_class, id_)], Except.ok (factory_get_object obj_class id_))

/-- `JSSAPIConnector.post` (lines 196-246): serialize the document, POST
it to the raw concatenated URL, print a trace on status 201 when
verbose, raise `JSSPostError` via `error_handler` on status ≥ 400, then
extract the new object id and fetch the object through the factory. -/
def post {α γ β : Type} (base_url url_path : List Nat) (verbose : Bool)
    (session_post : List Nat → String → Response) (tostring : α → String)
    (factory_get_object : γ → Nat → β) (obj_class : γ) (data : α) :
    List (List Nat) × (List (γ × Nat) × Except PyExn β) :=
  let request_url := post_request_url base_url url_path
  let response := session_post request_url (tostring data)
  if response.status_code = 201 ∧ verbose = true then
    ([strBytes "POST " ++ request_url ++ strBytes ": Success"],
      post_finish factory_get_object obj_class response)
  else if 400 ≤ response.status_code then
    ([], ([], Except.error (error_handler PyExn.jssPostError response)))
  else
    ([], post_finish factory_get_object obj_class response)

/-- `JSSAPIConnector.put` (lines 248-270): serialize the document, PUT it
to the raw concatenated URL, print a trace on status 201 when verbose,
raise `JSSPutError` via `error_handler` on status ≥ 400, and otherwise
return `None`. -/
def put {α : Type} (base_url url_path : List Nat) (verbose : Bool)
    (session_put : List Nat → String → Response) (tostring : α → String)
    (data : α) : List (List Nat) × Except PyExn Unit :=
  let request_url := put_request_url base_url url_path
  let response := session_put request_url (tostring data)
  if response.status_code = 201 ∧ verbose = true then
    ([strBytes "PUT " ++ request_url ++ strBytes ": Success."], Except.ok ())
  else if 400 ≤ response.status_code then
    ([], Except.error (error_handler PyExn.jssPutError response))
  else
    ([], Except.ok ())

/-- Python truthiness of an optional string argument, as tested by
`if data:` on line 286: `None` and the empty string are falsy. -/
def py_truthy_str : Option String → Bool
  | none => false
  | some s => s ≠ ""

/-- The body the DELETE request carries (lines 286-289): `session.delete`
is called with `data=data` only when `data` is truthy, otherwise without
a body. -/
def delete_sent_body (data : Option String) : Option String :=
  if py_truthy_str data then data else none

/-- `JSSAPIConnector.delete` (lines 272-294): DELETE the raw concatenated
URL with the optional body, print a trace on status 200 when verbose,
raise `JSSDeleteError` via `error_handler` on status ≥ 400, and
otherwise return `None`. -/
def delete (base_url url_path : List Nat) (verbose : Bool)
    (session_delete : List Nat → Option String → Response)
    (data : Option String) : List (List Nat) × Except PyExn Unit :=
  let request_url := delete_request_url base_url url_path
  let response := session_delete request_url (delete_sent_body data)
  if response.status_code = 200 ∧ verbose = true then
    ([strBytes "DEL " ++ request_url ++ strBytes ": Success."], Except.ok ())
  else if 400 ≤ response.status_code then
    ([], Except.error (error_handler PyExn.jssDeleteError response))
  else
    ([], Except.ok ())

/-- `JSSConnector.base_url` setter normalization (line 107):
`url.rstrip("/")`, removal of all trailing slashes. -/
def rstripSlash (url : String) : String :=
  String.mk ((url.data.reverse.dropWhile (fun c => c == '/')).reverse)

/-- A `requests.Session`, reduced to the fields the connectors touch:
the certificate-verification flag, the basic-auth credential pair and
the header dictionary. -/
structure Session where
  verify : Bool
  auth : Option (Option String × Option String)
  headers : List (String × String)
deriving DecidableEq

/-- A fresh `requests.Session()`: certificate verification defaults to
enabled, no auth, default headers (modelled as empty). -/
def requests_Session : Session :=
  { verify := true, auth := none, headers := [] }

/-- The header update of `JSSAPIConnector.__init__` (line 127). -/
def xml_headers : List (String × String) :=
  [("content-type", "text/xml"), ("Accept", "application/xml")]

/-- Instance attributes of a `JSSAPIConnector`.  A field holds `none`
while the corresponding attribute has not been assigned yet, so reading
it raises `AttributeError`.  `ssl_verify` is *not* a field: on this
class it is a property backed by `session.verify`. -/
structure JSSAPIConnectorState where
  _base_url : Option String := none
  user : Option (Option String) := none
  password : Option (Option String) := none
  repo_prefs : Option (List String) := none
  verbose : Option Bool := none
  jss_migrated : Option Bool := none
  suppress_warnings : Option Bool := none
  session : Option Session := none
  factory : Option Unit := none
  distribution_points : Option Unit := none
deriving DecidableEq

/-- The `base_url` property setter (lines 103-107), as run on any
connector instance. -/
def set_base_url (st : JSSAPIConnectorState) (url : String) : JSSAPIConnectorState :=
  { st with _base_url := some (rstripSlash url) }

/-- The `JSSAPIConnector.ssl_verify` property setter (lines 148-155):
`self.session.verify = value`.  Reading `self.session` raises
`AttributeError` when the attribute does not exist yet. -/
def jssapi_set_ssl_verify (st : JSSAPIConnectorState) (value : Bool) :
    Except PyExn JSSAPIConnectorState :=
  match st.session with
  | none => Except.error (PyExn.attributeError "JSSAPIConnector object has no attribute session")
  | some sess => Except.ok { st with session := some { sess with verify := value } }

/-- `repo_prefs if repo_prefs else []` (line 92): Python truthiness of
the optional list. -/
def repo_prefs_value (repo_prefs : Option (List String)) : List String :=
  match repo_prefs with
  | none => []
  | some l => if l = [] then [] else l

/-- `JSSConnector.__init__` (lines 88-96), as run on a `JSSAPIConnector`
instance, so that the assignment `self.ssl_verify = ssl_verify` on
line 95 dispatches to the subclass property setter.  Returns the
instance state reached together with the exception raised, if any. -/
def jssConnector_init_on_api (url : String) (user password : Option String)
    (repo_prefs : Option (List String))
    (ssl_verify verbose jss_migrated suppress_warnings : Bool) :
    JSSAPIConnectorState × Option PyExn :=
  let st : JSSAPIConnectorState := {}
  let st := { st with _base_url := some "" }
  let st := set_base_url st url
  let st := { st with user := some user }
  let st := { st with password := some password }
  let st := { st with repo_prefs := some (repo_prefs_value repo_prefs) }
  let st := { st with verbose := some verbose }
  let st := { st with jss_migrated := some jss_migrated }
  match jssapi_set_ssl_verify st ssl_verify with
  | Except.error e => (st, some e)
  | Except.ok st2 => ({ st2 with suppress_warnings := some suppress_warnings }, none)

/-- `JSSAPIConnector.__init__` (lines 116-136): run the base initializer;
if it raises, construction stops there.  Otherwise create the session
with basic auth and the XML headers, then the factory and
distribution-points collaborators. -/
def jssAPIConnector_init (url : String) (user password : Option String)
    (repo_prefs : Option (List String))
    (ssl_verify verbose jss_migrated suppress_warnings : Bool) :
    JSSAPIConnectorState × Option PyExn :=
  match jssConnector_init_on_api url user password repo_prefs
      ssl_verify verbose jss_migrated suppress_warnings with
  | (st, some e) => (st, some e)
  | (st, none) =>
    let st := { st with session := some { requests_Session with
                  auth := some (user, password), headers := xml_headers } }
    let st := { st with factory := some () }
    let st := { st with distribution_points := some () }
    (st, none)

/-- Instance attributes of a `JSSUAPIConnector`.  This class defines no
`ssl_verify` property, so `ssl_verify` is an ordinary instance
attribute. -/
structure JSSUAPIConnectorState where
  _base_url : Option String := none
  user : Option (Option String) := none
  password : Option (Option String) := none
  repo_prefs : Option (List String) := none
  verbose : Option Bool := none
  jss_migrated : Option Bool := none
  ssl_verify : Option Bool := none
  suppress_warnings : Option Bool := none
  session : Option Session := none
deriving DecidableEq

/-- Assignment to `ssl_verify` on a `JSSUAPIConnector`: a plain attribute
write; the session is not consulted or modified. -/
def uapi_set_ssl_verify (st : JSSUAPIConnectorState) (value : Bool) :
    JSSUAPIConnectorState :=
  { st with ssl_verify := some value }

/-- `JSSConnector.__init__` (lines 88-96), as run on a `JSSUAPIConnector`
instance: every assignment is a plain attribute write (apart from the
`base_url` property), so no exception can be raised. -/
def jssConnector_init_on_uapi (url : String) (user password : Option String)
    (repo_prefs : Option (List String))
    (ssl_verify verbose jss_migrated suppress_warnings : Bool) :
    JSSUAPIConnectorState :=
  let st : JSSUAPIConnectorState := {}
  let st := { st with _base_url := some (rstripSlash url) }
  let st := { st with user := some user }
  let st := { st with password := some password }
  let st := { st with repo_prefs := some (repo_prefs_value repo_prefs) }
  let st := { st with verbose := some verbose }
  let st := { st with jss_migrated := some jss_migrated }
  let st := uapi_set_ssl_verify st ssl_verify
  { st with suppress_warnings := some suppress_warnings }

/-- `JSSUAPIConnector.__init__` (lines 302-312): base initializer, then a
fresh session (no auth is attached; the TLS adapter mount does not
change the modelled fields). -/
def jssUAPIConnector_init (url : String) (user password : Option String)
    (repo_prefs : Option (List String))
    (ssl_verify verbose jss_migrated suppress_warnings : Bool) :
    JSSUAPIConnectorState :=
  let st := jssConnector_init_on_uapi url user password repo_prefs
      ssl_verify verbose jss_migrated suppress_warnings
  { st with session := some requests_Session }

/-- Instance attributes of a `JSSScraperConnector`; like the UAPI
connector, `ssl_verify` is an ordinary instance attribute here. -/
structure JSSScraperConnectorState where
  _base_url : Option String := none
  user : Option (Option String) := none
  password : Option (Option String) := none
  repo_prefs : Option (List String) := none
  verbose : Option Bool := none
  jss_migrated : Option Bool := none
  ssl_verify : Option Bool := none
  suppress_warnings : Option Bool := none
  session : Option Session := none
deriving DecidableEq

/-- Assignment to `ssl_verify` on a `JSSScraperConnector`: a plain
attribute write; the session is not consulted or modified. -/
def scraper_set_ssl_verify (st : JSSScraperConnectorState) (value : Bool) :
    JSSScraperConnectorState :=
  { st with ssl_verify := some value }

/-- `JSSScraperConnector.__init__` (lines 331-341): base initializer with
plain attribute writes, then a fresh session. -/
def jssScraperConnector_init (url : String) (user password : Option String)
    (repo_prefs : Option (List String))
    (ssl_verify verbose jss_migrated suppress_warnings : Bool) :
    JSSScraperConnectorState :=
  let st : JSSScraperConnectorState := {}
  let st := { st with _base_url := some (rstripSlash url) }
  let st := { st with user := some user }
  let st := { st with password := some password }
  let st := { st with repo_prefs := some (repo_prefs_value repo_prefs) }
  let st := { st with verbose := some verbose }
  let st := { st with jss_migrated := some jss_migrated }
  let st := scraper_set_ssl_verify st ssl_verify
  let st := { st with suppress_warnings := some suppress_warnings }
  { st with session := some requests_Session }

/-- Helper: the head of `dropWhile p l` cannot satisfy `p`. -/
theorem head?_dropWhile_ne (p : Char → Bool) :
    ∀ (l : List Char) (c : Char), p c = true → (l.dropWhile p).head? ≠ some c := by
  intro l
  induction l with
  | nil => intro c _ h; exact Option.noConfusion h
  | cons a t ih =>
    intro c hc
    by_cases hpa : p a = true
    · rw [List.dropWhile_cons, if_pos hpa]
      exact ih c hc
    · rw [List.dropWhile_cons, if_neg hpa]
      simp only [List.head?_cons]
      intro h
      injection h with h
      rw [h] at hpa
      exact hpa hc

/-- Sanity check that `searchId` returns the leftmost match, as
`re.search` does. -/
theorem searchId_takes_first :
    searchId ("<x><id>42</id><id>7</id></x>").data = some 42 := by decide

/-- C1 counterexample: a PUT whose response status is 200 raises nothing
and returns `None`, contradicting the claim that any status other than
201, including 200, raises `JSSPutError`. -/
theorem put_status200_no_raise :
    put (strBytes "https://host:8443") (strBytes "/packages/id/42") false
      (fun _ _ => { status_code := 200, text := "" }) (fun (s : String) => s)
      "<package/>" = ([], Except.ok ()) := rfl

/-- C1 (amended): `put` raises `JSSPutError` exactly for statuses ≥ 400;
every status below 400 — 201, but also 200 and any other sub-400
status — raises nothing and returns no value (201 is additionally the
only status that prints the verbose trace, see the trace theorem). -/
theorem put_status_dispatch {α : Type} (base_url url_path : List Nat) (verbose : Bool)
    (session_put : List Nat → String → Response) (tostring : α → String) (data : α) :
    (400 ≤ (session_put (put_request_url base_url url_path) (tostring data)).status_code →
      put base_url url_path verbose session_put tostring data =
        ([], Except.error (error_handler PyExn.jssPutError
          (session_put (put_request_url base_url url_path) (tostring data)))))
    ∧ ((session_put (put_request_url base_url url_path) (tostring data)).status_code < 400 →
      (put base_url url_path verbose session_put tostring data).2 = Except.ok ()) := by
  constructor
  · intro h
    have h201 : ¬ ((session_put (put_request_url base_url url_path)
        (tostring data)).status_code = 201 ∧ verbose = true) := by
      rintro ⟨h1, -⟩
      omega
    simp only [put, if_neg h201, if_pos h]
  · intro h
    have h400 : ¬ (400 ≤ (session_put (put_request_url base_url url_path)
        (tostring data)).status_code) := by omega
    by_cases h201 : (session_put (put_request_url base_url url_path)
        (tostring data)).status_code = 201 ∧ verbose = true
    · simp only [put, if_pos h201]
    · simp only [put, if_neg h201, if_neg h400]

/-- Witness for the amended C1 theorem at concrete inputs: status 404
raises `JSSPutError`, status 200 returns `None` without raising. -/
theorem put_status_dispatch_witness :
    (put (strBytes "https://host:8443") (strBytes "/packages/id/42") false
        (fun _ _ => { status_code := 404, text := "Not Found" })
        (fun (s : String) => s) "<package/>" =
      ([], Except.error (PyExn.jssPutError (ErrDiag.http 404 "Not Found"))))
    ∧ ((put (strBytes "https://host:8443") (strBytes "/packages/id/42") false
        (fun _ _ => { status_code := 200, text := "" })
        (fun (s : String) => s) "<package/>").2 = Except.ok ()) :=
  ⟨(put_status_dispatch (strBytes "https://host:8443") (strBytes "/packages/id/42") false
      (fun _ _ => { status_code := 404, text := "Not Found" })
      (fun (s : String) => s) "<package/>").1 (by decide),
   (put_status_dispatch (strBytes "https://host:8443") (strBytes "/packages/id/42") false
      (fun _ _ => { status_code := 200, text := "" })
      (fun (s : String) => s) "<package/>").2 (by decide)⟩

/-- C2: constructing a `JSSAPIConnector` always raises `AttributeError`:
the base initializer's `self.ssl_verify = ssl_verify` dispatches to the
subclass property setter, which dereferences `self.session` before the
subclass initializer has created the session.  The failure happens after
the preceding assignments (base url through `jss_migrated`) and before
`suppress_warnings`, the session, the factory, or the
distribution-points collaborator are ever set. -/
theorem jssAPIConnector_construction_raises (url : String)
    (user password : Option String) (repo_prefs : Option (List String))
    (ssl_verify verbose jss_migrated suppress_warnings : Bool) :
    (jssAPIConnector_init url user password repo_prefs ssl_verify verbose
        jss_migrated suppress_warnings).2 =
      some (PyExn.attributeError "JSSAPIConnector object has no attribute session")
    ∧ (jssAPIConnector_init url user password repo_prefs ssl_verify verbose
        jss_migrated suppress_warnings).1.session = none
    ∧ (jssAPIConnector_init url user password repo_prefs ssl_verify verbose
        jss_migrated suppress_warnings).1.factory = none
    ∧ (jssAPIConnector_init url user password repo_prefs ssl_verify verbose
        jss_migrated suppress_warnings).1.distribution_points = none
    ∧ (jssAPIConnector_init url user password repo_prefs ssl_verify verbose
        jss_migrated suppress_warnings).1._base_url = some (rstripSlash url)
    ∧ (jssAPIConnector_init url user password repo_prefs ssl_verify verbose
        jss_migrated suppress_warnings).1.user = some user
    ∧ (jssAPIConnector_init url user password repo_prefs ssl_verify verbose
        jss_migrated suppress_warnings).1.jss_migrated = some jss_migrated
    ∧ (jssAPIConnector_init url user password repo_prefs ssl_verify verbose
        jss_migrated suppress_warnings).1.suppress_warnings = none :=
  ⟨rfl, rfl, rfl, rfl, rfl, rfl, rfl, rfl⟩

/-- C7: every string assigned to `base_url` — by the property setter or
during construction — is stored with all trailing `/` removed: the
stored value never ends in `/`, and it is the original string minus a
(possibly empty) trailing run of `/`. -/
theorem base_url_normalized (url : String) (st : JSSAPIConnectorState)
    (user password : Option String) (repo_prefs : Option (List String))
    (ssl_verify verbose jss_migrated suppress_warnings : Bool) :
    (set_base_url st url)._base_url = some (rstripSlash url)
    ∧ (jssConnector_init_on_api url user password repo_prefs ssl_verify verbose
        jss_migrated suppress_warnings).1._base_url = some (rstripSlash url)
    ∧ (rstripSlash url).data.getLast? ≠ some '/'
    ∧ ∃ t, url.data = (rstripSlash url).data ++ t ∧ ∀ c ∈ t, c = '/' := by
  refine ⟨rfl, rfl, ?_, ?_⟩
  · have hd : (rstripSlash url).data =
        (url.data.reverse.dropWhile (fun c => c == '/')).reverse := rfl
    rw [hd, List.getLast?_reverse]
    exact head?_dropWhile_ne _ _ '/' (by decide)
  · refine ⟨(url.data.reverse.takeWhile (fun c => c == '/')).reverse, ?_, ?_⟩
    · have hd : (rstripSlash url).data =
          (url.data.reverse.dropWhile (fun c => c == '/')).reverse := rfl
      rw [hd, ← List.reverse_append, List.takeWhile_append_dropWhile,
        List.reverse_reverse]
    · intro c hc
      rw [List.mem_reverse] at hc
      have hpc := List.mem_takeWhile_imp hc
      simpa using hpc

/-- C3: `get` requests exactly the normalized endpoint followed by
`/JSSResource` followed by the percent-encoded path; status ≥ 400 raises
`JSSGetError` carrying the status and body; status 200 with parseable
XML returns the parsed root; status 200 with malformed XML raises
`JSSGetError` whose diagnostic ("Error Parsing XML" plus the body) is
distinct from what the HTTP-failure case would raise. -/
theorem get_contract {α : Type} (base_url url_path : List Nat) (verbose : Bool)
    (session_get : List Nat → Response) (fromstring : String → Option α)
    (resp : Response) (x : α)
    (hresp : session_get (get_request_url base_url url_path) = resp) :
    (get_request_url base_url url_path =
        base_url ++ (strBytes "/JSSResource" ++ quote url_path))
    ∧ (400 ≤ resp.status_code →
        (get base_url url_path verbose session_get fromstring).2 =
          Except.error (PyExn.jssGetError (ErrDiag.http resp.status_code resp.text)))
    ∧ (resp.status_code = 200 → fromstring resp.text = some x →
        (get base_url url_path verbose session_get fromstring).2 = Except.ok x)
    ∧ (resp.status_code = 200 → fromstring resp.text = none →
        (get base_url url_path verbose session_get fromstring).2 =
          Except.error (PyExn.jssGetError
            (ErrDiag.message ("Error Parsing XML:\n" ++ resp.text)))
        ∧ PyExn.jssGetError (ErrDiag.message ("Error Parsing XML:\n" ++ resp.text)) ≠
            error_handler PyExn.jssGetError resp) := by
  subst hresp
  refine ⟨by simp [get_request_url, api_url, List.append_assoc], ?_, ?_, ?_⟩
  · intro h
    have h200 : ¬ ((session_get (get_request_url base_url url_path)).status_code = 200
        ∧ verbose = true) := by
      rintro ⟨h1, -⟩
      omega
    simp only [get, if_neg h200, if_pos h, error_handler]
  · intro h200 hx
    by_cases hv : (session_get (get_request_url base_url url_path)).status_code = 200
        ∧ verbose = true
    · simp only [get, if_pos hv, get_parse, hx]
    · have h400 : ¬ (400 ≤ (session_get (get_request_url base_url url_path)).status_code) := by
        omega
      simp only [get, if_neg hv, if_neg h400, get_parse, hx]
  · intro h200 hx
    refine ⟨?_, by simp [error_handler]⟩
    by_cases hv : (session_get (get_request_url base_url url_path)).status_code = 200
        ∧ verbose = true
    · simp only [get, if_pos hv, get_parse, hx]
    · have h400 : ¬ (400 ≤ (session_get (get_request_url base_url url_path)).status_code) := by
        omega
      simp only [get, if_neg hv, if_neg h400, get_parse, hx]

/-- Witness for C3 at concrete inputs: a 404 raises `JSSGetError` with
status and body, a 200 with well-formed XML returns the root, and a 200
with malformed XML raises the parse diagnostic. -/
theorem get_contract_witness :
    ((get (strBytes "https://host:8443") (strBytes "/packages/id/5") false
        (fun _ => { status_code := 404, text := "Not Found" })
        (fun _ => (none : Option String))).2 =
      Except.error (PyExn.jssGetError (ErrDiag.http 404 "Not Found")))
    ∧ ((get (strBytes "https://host:8443") (strBytes "/packages/id/5") false
        (fun _ => { status_code := 200,
                    text := "<package><id>5</id><name>Foo</name></package>" })
        (fun _ => some "package")).2 = Except.ok "package")
    ∧ ((get (strBytes "https://host:8443") (strBytes "/packages/id/5") false
        (fun _ => { status_code := 200, text := "<bad" })
        (fun _ => (none : Option String))).2 =
      Except.error (PyExn.jssGetError (ErrDiag.message ("Error Parsing XML:\n<bad")))) :=
  ⟨(get_contract (strBytes "https://host:8443") (strBytes "/packages/id/5") false
      (fun _ => { status_code := 404, text := "Not Found" })
      (fun _ => (none : Option String)) { status_code := 404, text := "Not Found" }
      "x" rfl).2.1 (by decide),
   (get_contract (strBytes "https://host:8443") (strBytes "/packages/id/5") false
      (fun _ => { status_code := 200,
                  text := "<package><id>5</id><name>Foo</name></package>" })
      (fun _ => some "package")
      { status_code := 200, text := "<package><id>5</id><name>Foo</name></package>" }
      "package" rfl).2.2.1 rfl rfl,
   ((get_contract (strBytes "https://host:8443") (strBytes "/packages/id/5") false
      (fun _ => { status_code := 200, text := "<bad" })
      (fun _ => (none : Option String)) { status_code := 200, text := "<bad" }
      "x" rfl).2.2.2 rfl rfl).1⟩

/-- C4: `post` raises `JSSPostError` carrying status and body whenever
the status is ≥ 400; otherwise it extracts the number of the first
`<id>NNN</id>` occurrence in the body, invokes `factory.get_object`
exactly once with the object class and that number, and returns the
factory's result. -/
theorem post_contract {α γ β : Type} (base_url url_path : List Nat) (verbose : Bool)
    (session_post : List Nat → String → Response) (tostring : α → String)
    (factory_get_object : γ → Nat → β) (obj_class : γ) (data : α)
    (resp : Response) (n : Nat)
    (hresp : session_post (post_request_url base_url url_path) (tostring data) = resp) :
    (400 ≤ resp.status_code →
      (post base_url url_path verbose session_post tostring factory_get_object
          obj_class data).2 =
        ([], Except.error (PyExn.jssPostError (ErrDiag.http resp.status_code resp.text))))
    ∧ (resp.status_code < 400 → searchId resp.text.data = some n →
      (post base_url url_path verbose session_post tostring factory_get_object
          obj_class data).2 =
        ([(obj_class, n)], Except.ok (factory_get_object obj_class n))) := by
  subst hresp
  constructor
  · intro h
    have h201 : ¬ ((session_post (post_request_url base_url url_path)
        (tostring data)).status_code = 201 ∧ verbose = true) := by
      rintro ⟨h1, -⟩
      omega
    simp only [post, if_neg h201, if_pos h, error_handler]
  · intro h hsearch
    by_cases h201 : (session_post (post_request_url base_url url_path)
        (tostring data)).status_code = 201 ∧ verbose = true
    · simp only [post, if_pos h201, post_finish, hsearch]
    · have h400 : ¬ (400 ≤ (session_post (post_request_url base_url url_path)
          (tostring data)).status_code) := by omega
      simp only [post, if_neg h201, if_neg h400, post_finish, hsearch]

/-- Witness for C4 at concrete inputs: a 409 raises `JSSPostError`; a 201
whose body contains `<id>42</id>` invokes the factory once with
`("Package", 42)` and returns its result. -/
theorem post_contract_witness :
    ((post (strBytes "https://host:8443") (strBytes "/packages/id/0") false
        (fun _ _ => { status_code := 409, text := "Conflict" })
        (fun (s : String) => s) (fun (k : String) (i : Nat) => (k, i))
        "Package" "<package/>").2 =
      ([], Except.error (PyExn.jssPostError (ErrDiag.http 409 "Conflict"))))
    ∧ ((post (strBytes "https://host:8443") (strBytes "/packages/id/0") false
        (fun _ _ => { status_code := 201,
                      text := "<package><id>42</id><name>Foo</name></package>" })
        (fun (s : String) => s) (fun (k : String) (i : Nat) => (k, i))
        "Package" "<package/>").2 =
      ([("Package", 42)], Except.ok ("Package", 42))) :=
  ⟨(post_contract (strBytes "https://host:8443") (strBytes "/packages/id/0") false
      (fun _ _ => { status_code := 409, text := "Conflict" })
      (fun (s : String) => s) (fun (k : String) (i : Nat) => (k, i))
      "Package" "<package/>" { status_code := 409, text := "Conflict" } 0 rfl).1
      (by decide),
   (post_contract (strBytes "https://host:8443") (strBytes "/packages/id/0") false
      (fun _ _ => { status_code := 201,
                    text := "<package><id>42</id><name>Foo</name></package>" })
      (fun (s : String) => s) (fun (k : String) (i : Nat) => (k, i))
      "Package" "<package/>"
      { status_code := 201, text := "<package><id>42</id><name>Foo</name></package>" }
      42 rfl).2 (by decide) (by decide)⟩

/-- C5: on a sub-400 response whose body contains no `<id>NNN</id>`,
`post` does not raise a clear parsing error: `re.search` returns `None`
and the attribute access `.group(1)` raises a bare `AttributeError`,
with no factory invocation.  (Evaluation of the model at the failing
input of the claim.) -/
theorem post_missing_id_raises_attribute_error :
    (post (strBytes "https://host:8443") (strBytes "/packages/id/0") false
      (fun _ _ => { status_code := 201, text := "<package><name>Foo</name></package>" })
      (fun (s : String) => s) (fun (k : String) (i : Nat) => (k, i))
      "Package" "<package/>").2 =
    ([], Except.error (PyExn.attributeError "NoneType object has no attribute group")) :=
  rfl

/-- C6 counterexample: a supplied but empty request body is *not*
included in the DELETE request — `if data:` tests Python truthiness, and
the empty string is falsy, so the request carries no body. -/
theorem delete_empty_body_not_sent :
    delete_sent_body (some "") = none ∧ delete_sent_body (some "") ≠ some "" :=
  ⟨rfl, by decide⟩

/-- C6 (amended): `delete` raises `JSSDeleteError` carrying status and
body for statuses ≥ 400 and otherwise returns silently; a supplied
*non-empty* body is included in the request, while an omitted — or
empty, by Python truthiness — body results in a request with no body. -/
theorem delete_contract_amended (base_url url_path : List Nat) (verbose : Bool)
    (session_delete : List Nat → Option String → Response) (data : Option String)
    (s : String) (resp : Response)
    (hresp : session_delete (delete_request_url base_url url_path)
        (delete_sent_body data) = resp) :
    (400 ≤ resp.status_code →
      delete base_url url_path verbose session_delete data =
        ([], Except.error (PyExn.jssDeleteError (ErrDiag.http resp.status_code resp.text))))
    ∧ (resp.status_code < 400 →
      (delete base_url url_path verbose session_delete data).2 = Except.ok ())
    ∧ (data = some s → s ≠ "" → delete_sent_body data = some s)
    ∧ delete_sent_body none = none
    ∧ delete_sent_body (some "") = none := by
  subst hresp
  refine ⟨?_, ?_, ?_, rfl, rfl⟩
  · intro h
    have h200 : ¬ ((session_delete (delete_request_url base_url url_path)
        (delete_sent_body data)).status_code = 200 ∧ verbose = true) := by
      rintro ⟨h1, -⟩
      omega
    simp only [delete, if_neg h200, if_pos h, error_handler]
  · intro h
    have h400 : ¬ (400 ≤ (session_delete (delete_request_url base_url url_path)
        (delete_sent_body data)).status_code) := by omega
    by_cases h200 : (session_delete (delete_request_url base_url url_path)
        (delete_sent_body data)).status_code = 200 ∧ verbose = true
    · simp only [delete, if_pos h200]
    · simp only [delete, if_neg h200, if_neg h400]
  · intro hdata hs
    subst hdata
    simp [delete_sent_body, py_truthy_str, hs]

/-- Witness for the amended C6 theorem at concrete inputs: a 404 raises
`JSSDeleteError`; a 200 returns silently; a non-empty supplied body is
the body sent. -/
theorem delete_contract_amended_witness :
    (delete (strBytes "https://host:8443") (strBytes "/packages/id/42") false
        (fun _ _ => { status_code := 404, text := "Not Found" }) none =
      ([], Except.error (PyExn.jssDeleteError (ErrDiag.http 404 "Not Found"))))
    ∧ ((delete (strBytes "https://host:8443") (strBytes "/packages/id/42") false
        (fun _ _ => { status_code := 200, text := "" }) (some "<x/>")).2 = Except.ok ())
    ∧ delete_sent_body (some "<x/>") = some "<x/>" :=
  ⟨(delete_contract_amended (strBytes "https://host:8443") (strBytes "/packages/id/42")
      false (fun _ _ => { status_code := 404, text := "Not Found" }) none "x"
      { status_code := 404, text := "Not Found" } rfl).1 (by decide),
   (delete_contract_amended (strBytes "https://host:8443") (strBytes "/packages/id/42")
      false (fun _ _ => { status_code := 200, text := "" }) (some "<x/>") "x"
      { status_code := 200, text := "" } rfl).2.1 (by decide),
   (delete_contract_amended (strBytes "https://host:8443") (strBytes "/packages/id/42")
      false (fun _ _ => { status_code := 200, text := "" }) (some "<x/>") "<x/>"
      { status_code := 200, text := "" } rfl).2.2.1 rfl (by decide)⟩

/-- C8 counterexample: on a freshly constructed `JSSUAPIConnector`,
assigning `False` to `ssl_verify` leaves the session's
certificate-verification flag at its default `True` — the assignment
does not reach the session. -/
theorem uapi_ssl_verify_not_propagated :
    ((uapi_set_ssl_verify
        (jssUAPIConnector_init "https://host:8443" (some "user") (some "pass") none
          true false false false) false).session).map Session.verify = some true
    ∧ ((uapi_set_ssl_verify
        (jssUAPIConnector_init "https://host:8443" (some "user") (some "pass") none
          true false false false) false).session).map Session.verify ≠ some false :=
  ⟨rfl, by decide⟩

/-- C8 (amended): only the XML API connector defines `ssl_verify` as a
property backed by the session: there, assigning `v` immediately sets
the session's verification flag to `v`.  On the UAPI and scraper
connectors `ssl_verify` is a plain instance attribute, and assigning it
leaves the session untouched. -/
theorem ssl_verify_setter_dispatch (st : JSSAPIConnectorState) (sess : Session)
    (v : Bool) (ust : JSSUAPIConnectorState) (sst : JSSScraperConnectorState)
    (hsess : st.session = some sess) :
    jssapi_set_ssl_verify st v =
      Except.ok { st with session := some { sess with verify := v } }
    ∧ (uapi_set_ssl_verify ust v).session = ust.session
    ∧ (scraper_set_ssl_verify sst v).session = sst.session := by
  refine ⟨?_, rfl, rfl⟩
  simp only [jssapi_set_ssl_verify, hsess]

/-- Witness for the amended C8 theorem at a concrete state with a live
session: the XML API setter rewrites the session's verify flag. -/
theorem ssl_verify_setter_dispatch_witness :
    jssapi_set_ssl_verify { session := some requests_Session } false =
      Except.ok { session := some { requests_Session with verify := false } }
    ∧ (uapi_set_ssl_verify {} false).session = ({} : JSSUAPIConnectorState).session
    ∧ (scraper_set_ssl_verify {} false).session =
        ({} : JSSScraperConnectorState).session :=
  ssl_verify_setter_dispatch { session := some requests_Session } requests_Session
    false {} {} rfl

/-- C9 counterexample: a verbose DELETE whose response status is 201
succeeds (returns `None`, raises nothing) yet prints no trace line,
contradicting the claim that every successful call prints exactly one
trace line. -/
theorem delete_verbose_201_no_trace :
    delete (strBytes "https://host:8443") (strBytes "/packages/id/42") true
      (fun _ _ => { status_code := 201, text := "" }) none = ([], Except.ok ()) :=
  rfl

/-- C9 (amended): with verbosity enabled, each verb prints exactly one
trace line — containing the method name and the request URL — when the
response status equals its designated success code (200 for GET and
DELETE, 201 for POST and PUT), and prints nothing otherwise; and every
call whose response status is ≥ 400 raises its verb's error rather than
returning a result. -/
theorem verbose_trace_amended {α α2 γ β : Type} (base_url url_path : List Nat)
    (verbose : Bool) (session_get : List Nat → Response) (fromstring : String → Option α)
    (session_post : List Nat → String → Response) (tostring : α2 → String)
    (factory_get_object : γ → Nat → β) (obj_class : γ) (pdata : α2) (putdata : α2)
    (session_put : List Nat → String → Response)
    (session_delete : List Nat → Option String → Response) (ddata : Option String) :
    ((get base_url url_path verbose session_get fromstring).1 =
      if (session_get (get_request_url base_url url_path)).status_code = 200
          ∧ verbose = true then
        [strBytes "GET " ++ get_request_url base_url url_path ++ strBytes ": Success."]
      else [])
    ∧ ((post base_url url_path verbose session_post tostring factory_get_object
          obj_class pdata).1 =
      if (session_post (post_request_url base_url url_path)
            (tostring pdata)).status_code = 201 ∧ verbose = true then
        [strBytes "POST " ++ post_request_url base_url url_path ++ strBytes ": Success"]
      else [])
    ∧ ((put base_url url_path verbose session_put tostring putdata).1 =
      if (session_put (put_request_url base_url url_path)
            (tostring putdata)).status_code = 201 ∧ verbose = true then
        [strBytes "PUT " ++ put_request_url base_url url_path ++ strBytes ": Success."]
      else [])
    ∧ ((delete base_url url_path verbose session_delete ddata).1 =
      if (session_delete (delete_request_url base_url url_path)
            (delete_sent_body ddata)).status_code = 200 ∧ verbose = true then
        [strBytes "DEL " ++ delete_request_url base_url url_path ++ strBytes ": Success."]
      else [])
    ∧ (400 ≤ (session_get (get_request_url base_url url_path)).status_code →
        (get base_url url_path verbose session_get fromstring).2 =
          Except.error (error_handler PyExn.jssGetError
            (session_get (get_request_url base_url url_path))))
    ∧ (400 ≤ (session_post (post_request_url base_url url_path)
          (tostring pdata)).status_code →
        (post base_url url_path verbose session_post tostring factory_get_object
            obj_class pdata).2 =
          ([], Except.error (error_handler PyExn.jssPostError
            (session_post (post_request_url base_url url_path) (tostring pdata)))))
    ∧ (400 ≤ (session_put (put_request_url base_url url_path)
          (tostring putdata)).status_code →
        (put base_url url_path verbose session_put tostring putdata).2 =
          Except.error (error_handler PyExn.jssPutError
            (session_put (put_request_url base_url url_path) (tostring putdata))))
    ∧ (400 ≤ (session_delete (delete_request_url base_url url_path)
          (delete_sent_body ddata)).status_code →
        (delete base_url url_path verbose session_delete ddata).2 =
          Except.error (error_handler PyExn.jssDeleteError
            (session_delete (delete_request_url base_url url_path)
              (delete_sent_body ddata)))) := by
  refine ⟨?_, ?_, ?_, ?_, ?_, ?_, ?_, ?_⟩
  · by_cases hc : (session_get (get_request_url base_url url_path)).status_code = 200
        ∧ verbose = true
    · simp only [get, if_pos hc]
    · by_cases h4 : 400 ≤ (session_get (get_request_url base_url url_path)).status_code
      · simp only [get, if_neg hc, if_pos h4]
      · simp only [get, if_neg hc, if_neg h4]
  · by_cases hc : (session_post (post_request_url base_url url_path)
        (tostring pdata)).status_code = 201 ∧ verbose = true
    · simp only [post, if_pos hc]
    · by_cases h4 : 400 ≤ (session_post (post_request_url base_url url_path)
          (tostring pdata)).status_code
      · simp only [post, if_neg hc, if_pos h4]
      · simp only [post, if_neg hc, if_neg h4]
  · by_cases hc : (session_put (put_request_url base_url url_path)
        (tostring putdata)).status_code = 201 ∧ verbose = true
    · simp only [put, if_pos hc]
    · by_cases h4 : 400 ≤ (session_put (put_request_url base_url url_path)
          (tostring putdata)).status_code
      · simp only [put, if_neg hc, if_pos h4]
      · simp only [put, if_neg hc, if_neg h4]
  · by_cases hc : (session_delete (delete_request_url base_url url_path)
        (delete_sent_body ddata)).status_code = 200 ∧ verbose = true
    · simp only [delete, if_pos hc]
    · by_cases h4 : 400 ≤ (session_delete (delete_request_url base_url url_path)
          (delete_sent_body ddata)).status_code
      · simp only [delete, if_neg hc, if_pos h4]
      · simp only [delete, if_neg hc, if_neg h4]
  · intro h
    have hc : ¬ ((session_get (get_request_url base_url url_path)).status_code = 200
        ∧ verbose = true) := by
      rintro ⟨h1, -⟩
      omega
    simp only [get, if_neg hc, if_pos h]
  · intro h
    have hc : ¬ ((session_post (post_request_url base_url url_path)
        (tostring pdata)).status_code = 201 ∧ verbose = true) := by
      rintro ⟨h1, -⟩
      omega
    simp only [post, if_neg hc, if_pos h]
  · intro h
    have hc : ¬ ((session_put (put_request_url base_url url_path)
        (tostring putdata)).status_code = 201 ∧ verbose = true) := by
      rintro ⟨h1, -⟩
      omega
    simp only [put, if_neg hc, if_pos h]
  · intro h
    have hc : ¬ ((session_delete (delete_request_url base_url url_path)
        (delete_sent_body ddata)).status_code = 200 ∧ verbose = true) := by
      rintro ⟨h1, -⟩
      omega
    simp only [delete, if_neg hc, if_pos h]

/-- Witness for the amended C9 theorem: the four error hypotheses
discharged at concrete 4xx/5xx responses. -/
theorem verbose_trace_amended_witness :
    ((get (strBytes "h") (strBytes "/p") true
        (fun _ => { status_code := 404, text := "NF" })
        (fun _ => (none : Option String))).2 =
      Except.error (PyExn.jssGetError (ErrDiag.http 404 "NF")))
    ∧ ((post (strBytes "h") (strBytes "/p") true
        (fun _ _ => { status_code := 500, text := "ERR" })
        (fun (s : String) => s) (fun (k : String) (i : Nat) => (k, i)) "Package"
        "<x/>").2 =
      ([], Except.error (PyExn.jssPostError (ErrDiag.http 500 "ERR"))))
    ∧ ((put (strBytes "h") (strBytes "/p") true
        (fun _ _ => { status_code := 403, text := "Forbidden" })
        (fun (s : String) => s) "<x/>").2 =
      Except.error (PyExn.jssPutError (ErrDiag.http 403 "Forbidden")))
    ∧ ((delete (strBytes "h") (strBytes "/p") true
        (fun _ _ => { status_code := 401, text := "Unauthorized" }) none).2 =
      Except.error (PyExn.jssDeleteError (ErrDiag.http 401 "Unauthorized"))) :=
  ⟨(verbose_trace_amended (strBytes "h") (strBytes "/p") true
      (fun _ => { status_code := 404, text := "NF" }) (fun _ => (none : Option String))
      (fun _ _ => { status_code := 500, text := "ERR" }) (fun (s : String) => s)
      (fun (k : String) (i : Nat) => (k, i)) "Package" "<x/>" "<x/>"
      (fun _ _ => { status_code := 403, text := "Forbidden" })
      (fun _ _ => { status_code := 401, text := "Unauthorized" })
      none).2.2.2.2.1 (by decide),
   (verbose_trace_amended (strBytes "h") (strBytes "/p") true
      (fun _ => { status_code := 404, text := "NF" }) (fun _ => (none : Option String))
      (fun _ _ => { status_code := 500, text := "ERR" }) (fun (s : String) => s)
      (fun (k : String) (i : Nat) => (k, i)) "Package" "<x/>" "<x/>"
      (fun _ _ => { status_code := 403, text := "Forbidden" })
      (fun _ _ => { status_code := 401, text := "Unauthorized" })
      none).2.2.2.2.2.1 (by decide),
   (verbose_trace_amended (strBytes "h") (strBytes "/p") true
      (fun _ => { status_code := 404, text := "NF" }) (fun _ => (none : Option String))
      (fun _ _ => { status_code := 500, text := "ERR" }) (fun (s : String) => s)
      (fun (k : String) (i : Nat) => (k, i)) "Package" "<x/>" "<x/>"
      (fun _ _ => { status_code := 403, text := "Forbidden" })
      (fun _ _ => { status_code := 401, text := "Unauthorized" })
      none).2.2.2.2.2.2.1 (by decide),
   (verbose_trace_amended (strBytes "h") (strBytes "/p") true
      (fun _ => { status_code := 404, text := "NF" }) (fun _ => (none : Option String))
      (fun _ _ => { status_code := 500, text := "ERR" }) (fun (s : String) => s)
      (fun (k : String) (i : Nat) => (k, i)) "Package" "<x/>" "<x/>"
      (fun _ _ => { status_code := 403, text := "Forbidden" })
      (fun _ _ => { status_code := 401, text := "Unauthorized" })
      none).2.2.2.2.2.2.2 (by decide)⟩

/-- Helper: quoting cannot shorten a byte string. -/
theorem length_le_length_quote (l : List Nat) : l.length ≤ (quote l).length := by
  induction l with
  | nil => simp [quote]
  | cons b t ih =>
    simp only [quote, List.flatMap_cons, List.length_append, List.length_cons] at ih ⊢
    have h1 : 1 ≤ (quoteByte b).length := by
      rw [quoteByte]
      split_ifs <;> simp
    omega

/-- Helper: quoting a byte string containing an unsafe byte strictly
lengthens it. -/
theorem length_lt_length_quote (l : List Nat) (b : Nat) (hb : b ∈ l)
    (hs : always_safe_byte b = false) : l.length < (quote l).length := by
  induction l with
  | nil => cases hb
  | cons a t ih =>
    simp only [quote, List.flatMap_cons, List.length_append, List.length_cons] at ih ⊢
    rcases List.mem_cons.mp hb with h | h
    · subst h
      have h3 : (quoteByte b).length = 3 := by
        rw [quoteByte, if_neg (by rw [hs]; exact Bool.false_ne_true)]
        rfl
      have h2 := length_le_length_quote t
      simp only [quote] at h2
      omega
    · have h2 := ih h
      have h1 : 1 ≤ (quoteByte a).length := by
        rw [quoteByte]
        split_ifs <;> simp
      omega

/-- C10: `get` percent-encodes its path while `post`, `put` and `delete`
concatenate it raw, so whenever the path contains a byte outside the
safe set of `urllib.quote`, the GET request URL differs from the URL the
other three verbs address (and those three coincide). -/
theorem url_encoding_asymmetry (base_url url_path : List Nat) (b : Nat)
    (hb : b ∈ url_path) (hs : always_safe_byte b = false) :
    get_request_url base_url url_path ≠ post_request_url base_url url_path
    ∧ post_request_url base_url url_path = put_request_url base_url url_path
    ∧ put_request_url base_url url_path = delete_request_url base_url url_path := by
  refine ⟨fun h => ?_, rfl, rfl⟩
  have hlen := congrArg List.length h
  simp only [get_request_url, post_request_url, List.length_append] at hlen
  have hlt := length_lt_length_quote url_path b hb hs
  omega

/-- Witness for C10 at a concrete path containing a space (byte 32,
which requires escaping). -/
theorem url_encoding_asymmetry_witness :
    get_request_url (strBytes "https://host:8443") (strBytes "/packages/name/Some Pkg") ≠
      post_request_url (strBytes "https://host:8443") (strBytes "/packages/name/Some Pkg")
    ∧ post_request_url (strBytes "https://host:8443")
        (strBytes "/packages/name/Some Pkg") =
      put_request_url (strBytes "https://host:8443") (strBytes "/packages/name/Some Pkg")
    ∧ put_request_url (strBytes "https://host:8443")
        (strBytes "/packages/name/Some Pkg") =
      delete_request_url (strBytes "https://host:8443")
        (strBytes "/packages/name/Some Pkg") :=
  url_encoding_asymmetry (strBytes "https://host:8443")
    (strBytes "/packages/name/Some Pkg") 32 (by decide) (by decide)

end Jss
